import Mathlib

/-!
Shallow embedding of the SeafloorTectonicAnalyzer core:
the risk classifier of `src/data/seismic_processor.py` and the tectonic
stress / canyon-formation model of `src/models/tectonic_model.py`.
Machine floats are idealised as real numbers; numpy array operations are
modelled on lists, with numpy's broadcasting and indexing failures made
explicit through `Except`.
-/

/-- A row of the seismic dataset, with the columns the analyzer reads. -/
structure SeismicRecord where
  magnitude : ℝ
  depth : ℝ
  distance_from_plate_boundary : ℝ
  stress_tensor_xx : ℝ
  stress_tensor_yy : ℝ
  stress_tensor_xy : ℝ

/-- The per-record stress intensity of `SeismicAnalyzer.calculate_stress_intensity`:
`sqrt(0.5*((xx-yy)^2 + 4*xy^2) + (xx+yy)^2/4)`. -/
noncomputable def stressIntensity (xx yy xy : ℝ) : ℝ :=
  Real.sqrt (0.5 * ((xx - yy) ^ 2 + 4 * xy ^ 2) + (xx + yy) ^ 2 / 4)

/-- `calculate_stress_intensity` applied to a whole dataset (numpy elementwise). -/
noncomputable def calculateStressIntensity (data : List SeismicRecord) : List ℝ :=
  data.map fun r =>
    stressIntensity r.stress_tensor_xx r.stress_tensor_yy r.stress_tensor_xy

/-- numpy `arr.min()` on a list (0 on the empty list, which numpy rejects). -/
noncomputable def arrMin : List ℝ → ℝ
  | [] => 0
  | x :: xs => xs.foldl min x

/-- numpy `arr.max()` on a list (0 on the empty list, which numpy rejects). -/
noncomputable def arrMax : List ℝ → ℝ
  | [] => 0
  | x :: xs => xs.foldl max x

/-- Min-max normalization `(v - min)/(max - min)` of a value against a column. -/
noncomputable def minmaxNormalize (l : List ℝ) (v : ℝ) : ℝ :=
  (v - arrMin l) / (arrMax l - arrMin l)

/-- The composite risk score of `assess_seismic_risk` for one record of a
dataset: `0.4*norm_stress + 0.3*norm_magnitude + 0.3*(1 - norm_depth)`. -/
noncomputable def riskScore (data : List SeismicRecord) (r : SeismicRecord) : ℝ :=
  0.4 * minmaxNormalize (calculateStressIntensity data)
      (stressIntensity r.stress_tensor_xx r.stress_tensor_yy r.stress_tensor_xy)
    + 0.3 * minmaxNormalize (data.map SeismicRecord.magnitude) r.magnitude
    + 0.3 * (1 - minmaxNormalize (data.map SeismicRecord.depth) r.depth)

/-- The `risk_scores` array of `assess_seismic_risk`. -/
noncomputable def riskScores (data : List SeismicRecord) : List ℝ :=
  data.map (riskScore data)

/-- The five risk labels of `assess_seismic_risk`. -/
inductive RiskLevel where
  | veryHigh
  | high
  | moderate
  | low
  | veryLow
deriving DecidableEq, Repr

/-- The label cascade of `assess_seismic_risk`: thresholds checked high to low,
each inclusive on the lower bound. -/
noncomputable def riskLevelOf (score : ℝ) : RiskLevel :=
  if 0.8 ≤ score then .veryHigh
  else if 0.6 ≤ score then .high
  else if 0.4 ≤ score then .moderate
  else if 0.2 ≤ score then .low
  else .veryLow

/-- The `risk_levels` list of `assess_seismic_risk`. -/
noncomputable def riskLevels (data : List SeismicRecord) : List RiskLevel :=
  (riskScores data).map riskLevelOf

/-- The binary predictions of `assess_canyon_risk`:
`(risk_scores >= threshold).astype(int)`. -/
noncomputable def predictions (data : List SeismicRecord) (threshold : ℝ) : List ℕ :=
  (riskScores data).map fun s => if threshold ≤ s then 1 else 0

/-- The `risk_counts` dictionary of `assess_canyon_risk`: one entry per label,
counting the records carrying that label. -/
noncomputable def riskCountsMap (data : List SeismicRecord) : List (RiskLevel × ℕ) :=
  [(.veryHigh, (riskLevels data).count .veryHigh),
   (.high, (riskLevels data).count .high),
   (.moderate, (riskLevels data).count .moderate),
   (.low, (riskLevels data).count .low),
   (.veryLow, (riskLevels data).count .veryLow)]

theorem foldl_min_le_self (xs : List ℝ) : ∀ x : ℝ, xs.foldl min x ≤ x := by
  induction xs with
  | nil => intro x; simp
  | cons y ys ih => intro x; exact (ih (min x y)).trans (min_le_left x y)

theorem foldl_min_le_mem {a : ℝ} (xs : List ℝ) (h : a ∈ xs) :
    ∀ x : ℝ, xs.foldl min x ≤ a := by
  induction xs with
  | nil => simp at h
  | cons y ys ih =>
    intro x
    rcases List.mem_cons.mp h with h | h
    · subst h
      exact (foldl_min_le_self ys (min x a)).trans (min_le_right x a)
    · exact ih h (min x y)

theorem self_le_foldl_max (xs : List ℝ) : ∀ x : ℝ, x ≤ xs.foldl max x := by
  induction xs with
  | nil => intro x; simp
  | cons y ys ih => intro x; exact (le_max_left x y).trans (ih (max x y))

theorem mem_le_foldl_max {a : ℝ} (xs : List ℝ) (h : a ∈ xs) :
    ∀ x : ℝ, a ≤ xs.foldl max x := by
  induction xs with
  | nil => simp at h
  | cons y ys ih =>
    intro x
    rcases List.mem_cons.mp h with h | h
    · subst h
      exact (le_max_right x a).trans (self_le_foldl_max ys (max x a))
    · exact ih h (max x y)

theorem arrMin_le (l : List ℝ) (a : ℝ) (h : a ∈ l) : arrMin l ≤ a := by
  cases l with
  | nil => simp at h
  | cons x xs =>
    rcases List.mem_cons.mp h with h | h
    · exact h ▸ foldl_min_le_self xs x
    · exact foldl_min_le_mem xs h x

theorem le_arrMax (l : List ℝ) (a : ℝ) (h : a ∈ l) : a ≤ arrMax l := by
  cases l with
  | nil => simp at h
  | cons x xs =>
    rcases List.mem_cons.mp h with h | h
    · exact h ▸ self_le_foldl_max xs x
    · exact mem_le_foldl_max xs h x

theorem minmaxNormalize_bounds (l : List ℝ) (v : ℝ) (hv : v ∈ l)
    (hne : arrMin l ≠ arrMax l) :
    0 ≤ minmaxNormalize l v ∧ minmaxNormalize l v ≤ 1 := by
  have hlo := arrMin_le l v hv
  have hhi := le_arrMax l v hv
  have hlt : arrMin l < arrMax l := lt_of_le_of_ne (hlo.trans hhi) hne
  have hpos : 0 < arrMax l - arrMin l := by linarith
  unfold minmaxNormalize
  constructor
  · exact div_nonneg (by linarith) hpos.le
  · rw [div_le_one hpos]; linarith

/-- C2: for every record the stress-intensity operation returns exactly
`sqrt(0.5*((xx-yy)^2 + 4*xy^2) + (xx+yy)^2/4)` (division by 4 on the second
term), its square recovers that radicand, and the value is non-negative. -/
theorem stressIntensity_closed_form_nonneg :
    (∀ data : List SeismicRecord,
      calculateStressIntensity data = data.map fun r =>
        Real.sqrt (0.5 * ((r.stress_tensor_xx - r.stress_tensor_yy) ^ 2
            + 4 * r.stress_tensor_xy ^ 2)
          + (r.stress_tensor_xx + r.stress_tensor_yy) ^ 2 / 4)) ∧
    (∀ xx yy xy : ℝ,
      stressIntensity xx yy xy ^ 2
          = 0.5 * ((xx - yy) ^ 2 + 4 * xy ^ 2) + (xx + yy) ^ 2 / 4 ∧
      0 ≤ stressIntensity xx yy xy) := by
  refine ⟨fun data => rfl, fun xx yy xy => ⟨?_, Real.sqrt_nonneg _⟩⟩
  exact Real.sq_sqrt (by positivity)

/-- C5: the stress intensity is symmetric in its two normal components:
`f(xx, yy, xy) = f(yy, xx, xy)`. -/
theorem stressIntensity_swap_symm :
    ∀ xx yy xy : ℝ, stressIntensity xx yy xy = stressIntensity yy xx xy := by
  intro xx yy xy
  unfold stressIntensity
  congr 1
  ring

/-- C1: when the magnitude column, the depth column and the stress-intensity
sequence are each non-constant, every entry of `risk_scores` lies in [0, 1]. -/
theorem riskScores_mem_unitInterval (data : List SeismicRecord) (s : ℝ)
    (hmag : arrMin (data.map SeismicRecord.magnitude)
      ≠ arrMax (data.map SeismicRecord.magnitude))
    (hdep : arrMin (data.map SeismicRecord.depth)
      ≠ arrMax (data.map SeismicRecord.depth))
    (hstr : arrMin (calculateStressIntensity data)
      ≠ arrMax (calculateStressIntensity data))
    (hs : s ∈ riskScores data) :
    0 ≤ s ∧ s ≤ 1 := by
  obtain ⟨r, hr, rfl⟩ := List.mem_map.mp hs
  have hmem_str : stressIntensity r.stress_tensor_xx r.stress_tensor_yy
      r.stress_tensor_xy ∈ calculateStressIntensity data :=
    List.mem_map_of_mem _ hr
  have hmem_mag : r.magnitude ∈ data.map SeismicRecord.magnitude :=
    List.mem_map_of_mem _ hr
  have hmem_dep : r.depth ∈ data.map SeismicRecord.depth :=
    List.mem_map_of_mem _ hr
  obtain ⟨ha0, ha1⟩ := minmaxNormalize_bounds _ _ hmem_str hstr
  obtain ⟨hb0, hb1⟩ := minmaxNormalize_bounds _ _ hmem_mag hmag
  obtain ⟨hc0, hc1⟩ := minmaxNormalize_bounds _ _ hmem_dep hdep
  unfold riskScore
  constructor <;> nlinarith

/-- A two-record dataset exercising `riskScores_mem_unitInterval`. -/
noncomputable def sampleRecordA : SeismicRecord :=
  ⟨0, 0, 0, 0, 0, 0⟩

/-- A second sample record whose stress intensity is 1. -/
noncomputable def sampleRecordB : SeismicRecord :=
  ⟨1, 1, 0, 1, 1, 0⟩

/-- The two-record sample dataset. -/
noncomputable def sampleData : List SeismicRecord :=
  [sampleRecordA, sampleRecordB]

theorem riskScores_mem_unitInterval_witness :
    (arrMin (sampleData.map SeismicRecord.magnitude)
      ≠ arrMax (sampleData.map SeismicRecord.magnitude)) ∧
    (arrMin (sampleData.map SeismicRecord.depth)
      ≠ arrMax (sampleData.map SeismicRecord.depth)) ∧
    (arrMin (calculateStressIntensity sampleData)
      ≠ arrMax (calculateStressIntensity sampleData)) ∧
    riskScore sampleData sampleRecordA ∈ riskScores sampleData ∧
    (0 ≤ riskScore sampleData sampleRecordA ∧
      riskScore sampleData sampleRecordA ≤ 1) := by
  have h1 : arrMin (sampleData.map SeismicRecord.magnitude)
      ≠ arrMax (sampleData.map SeismicRecord.magnitude) := by
    norm_num [sampleData, sampleRecordA, sampleRecordB, arrMin, arrMax]
  have h2 : arrMin (sampleData.map SeismicRecord.depth)
      ≠ arrMax (sampleData.map SeismicRecord.depth) := by
    norm_num [sampleData, sampleRecordA, sampleRecordB, arrMin, arrMax]
  have h3 : arrMin (calculateStressIntensity sampleData)
      ≠ arrMax (calculateStressIntensity sampleData) := by
    norm_num [sampleData, sampleRecordA, sampleRecordB, arrMin, arrMax,
      calculateStressIntensity, stressIntensity, Real.sqrt_zero, Real.sqrt_one]
  have h4 : riskScore sampleData sampleRecordA ∈ riskScores sampleData := by
    simp [riskScores, sampleData]
  exact ⟨h1, h2, h3, h4,
    riskScores_mem_unitInterval sampleData _ h1 h2 h3 h4⟩

/-- C3: the label of a composite score is decided by lower-bound-inclusive
thresholds evaluated high to low (`≥0.8` VeryHigh, `≥0.6` High, `≥0.4`
Moderate, `≥0.2` Low, else VeryLow); in particular 0.8 maps to VeryHigh,
0.79999 to High, 0.6 to High, 0.4 to Moderate, 0.2 to Low, 0 to VeryLow. -/
theorem riskLevelOf_thresholds :
    (∀ s : ℝ,
      (riskLevelOf s = .veryHigh ↔ 0.8 ≤ s) ∧
      (riskLevelOf s = .high ↔ 0.6 ≤ s ∧ s < 0.8) ∧
      (riskLevelOf s = .moderate ↔ 0.4 ≤ s ∧ s < 0.6) ∧
      (riskLevelOf s = .low ↔ 0.2 ≤ s ∧ s < 0.4) ∧
      (riskLevelOf s = .veryLow ↔ s < 0.2)) ∧
    riskLevelOf 0.8 = .veryHigh ∧ riskLevelOf 0.79999 = .high ∧
    riskLevelOf 0.6 = .high ∧ riskLevelOf 0.4 = .moderate ∧
    riskLevelOf 0.2 = .low ∧ riskLevelOf 0 = .veryLow := by
  constructor
  · intro s
    unfold riskLevelOf
    split_ifs with h1 h2 h3 h4 <;>
      refine ⟨?_, ?_, ?_, ?_, ?_⟩ <;> simp_all <;> intros <;> linarith
  · refine ⟨?_, ?_, ?_, ?_, ?_, ?_⟩ <;> norm_num [riskLevelOf]

theorem count_levels_sum (l : List RiskLevel) :
    l.count .veryHigh + l.count .high + l.count .moderate
      + l.count .low + l.count .veryLow = l.length := by
  induction l with
  | nil => simp
  | cons a l ih => cases a <;> simp [List.count_cons] <;> omega

/-- C4: the `risk_counts` mapping of `assess_canyon_risk` carries all five
labels (zero-member categories appear with count 0), and its five counts sum
to the number of input records. -/
theorem riskCountsMap_complete_and_sums (data : List SeismicRecord) :
    (∀ lvl : RiskLevel, lvl ∈ (riskCountsMap data).map Prod.fst) ∧
    ((riskCountsMap data).map Prod.snd).sum = data.length := by
  constructor
  · intro lvl
    cases lvl <;> simp [riskCountsMap]
  · have h := count_levels_sum (riskLevels data)
    have hlen : (riskLevels data).length = data.length := by
      simp [riskLevels, riskScores]
    simp only [riskCountsMap, List.map_cons, List.map_nil, List.sum_cons,
      List.sum_nil]
    omega

theorem count_ones_eq_high_counts (l : List ℝ) :
    ((l.map fun s => if (0.6 : ℝ) ≤ s then (1 : ℕ) else 0).count 1)
      = (l.map riskLevelOf).count .veryHigh
        + (l.map riskLevelOf).count .high := by
  induction l with
  | nil => simp
  | cons s l ih =>
    by_cases h8 : (0.8 : ℝ) ≤ s
    · have h6 : (0.6 : ℝ) ≤ s := by linarith
      simp [riskLevelOf, h8, h6, List.count_cons, ih]
      omega
    · by_cases h6 : (0.6 : ℝ) ≤ s
      · simp [riskLevelOf, h8, h6, List.count_cons, ih]
        omega
      · by_cases h4 : (0.4 : ℝ) ≤ s
        · simp [riskLevelOf, h8, h6, h4, List.count_cons, ih]
        · by_cases h2 : (0.2 : ℝ) ≤ s
          · simp [riskLevelOf, h8, h6, h4, h2, List.count_cons, ih]
          · simp [riskLevelOf, h8, h6, h4, h2, List.count_cons, ih]

/-- C10: with the default threshold 0.6, the number of 1-entries among the
predictions of `assess_canyon_risk` equals the count of VeryHigh labels plus
the count of High labels: a record is predicted 1 exactly when its score is
at least 0.6, which is exactly when its label is High or VeryHigh. -/
theorem predictions_count_eq_high_levels (data : List SeismicRecord) :
    (predictions data 0.6).count 1
      = (riskLevels data).count .veryHigh + (riskLevels data).count .high := by
  unfold predictions riskLevels
  exact count_ones_eq_high_counts (riskScores data)

/-- The dictionary returned by `calculate_stress_distribution`. -/
structure StressDistribution where
  maximum_stress : ℝ
  strain_rate : ℝ
  normal_stress_x : ℝ
  normal_stress_y : ℝ
  shear_stress : ℝ

/-- The stress model of `tectonic_model.calculate_stress_distribution`:
unit conversion of the plate velocity, elastic stress and strain rate, and
the Poisson split into normal and shear components. -/
noncomputable def calculate_stress_distribution
    (plate_velocity crustal_thickness elastic_thickness poissons_ratio : ℝ) :
    StressDistribution :=
  let velocity_m_s := plate_velocity * 1e-2 / 365.25 / 24 / 3600
  let stress := velocity_m_s * crustal_thickness * 1000
    / (elastic_thickness * 1000)
  let strain_rate := velocity_m_s / (elastic_thickness * 1000)
  { maximum_stress := stress
    strain_rate := strain_rate
    normal_stress_x := stress * (1 - poissons_ratio)
    normal_stress_y := stress * (1 - poissons_ratio)
    shear_stress := stress * poissons_ratio }

/-- C6: with nonzero elastic thickness, `maximum_stress` is the unit-converted
velocity times crustal thickness in metres over elastic thickness in metres;
the shear stress is `poissons_ratio` times it and both normal stresses are
`(1 - poissons_ratio)` times it, so the default ratio 0.25 gives shear
`0.25*maximum_stress` and normals `0.75*maximum_stress`. -/
theorem calculate_stress_distribution_spec
    (v c e nu : ℝ) (he : e ≠ 0) :
    (calculate_stress_distribution v c e nu).maximum_stress
        = v / (365.25 * 24 * 3600 * 100) * (c * 1000) / (e * 1000) ∧
    (calculate_stress_distribution v c e nu).shear_stress
        = nu * (calculate_stress_distribution v c e nu).maximum_stress ∧
    (calculate_stress_distribution v c e nu).normal_stress_x
        = (1 - nu) * (calculate_stress_distribution v c e nu).maximum_stress ∧
    (calculate_stress_distribution v c e nu).normal_stress_y
        = (calculate_stress_distribution v c e nu).normal_stress_x ∧
    (calculate_stress_distribution v c e 0.25).shear_stress
        = 0.25 * (calculate_stress_distribution v c e 0.25).maximum_stress ∧
    (calculate_stress_distribution v c e 0.25).normal_stress_x
        = 0.75 * (calculate_stress_distribution v c e 0.25).maximum_stress ∧
    (calculate_stress_distribution v c e 0.25).normal_stress_y
        = 0.75 * (calculate_stress_distribution v c e 0.25).maximum_stress := by
  unfold calculate_stress_distribution
  refine ⟨?_, by ring, by ring, by ring, by ring, by ring, by ring⟩
  field_simp
  ring

theorem calculate_stress_distribution_spec_witness :
    ((50 : ℝ) ≠ 0) ∧
    ((calculate_stress_distribution 5 7 50 0.25).maximum_stress
        = 5 / (365.25 * 24 * 3600 * 100) * (7 * 1000) / (50 * 1000) ∧
    (calculate_stress_distribution 5 7 50 0.25).shear_stress
        = 0.25 * (calculate_stress_distribution 5 7 50 0.25).maximum_stress ∧
    (calculate_stress_distribution 5 7 50 0.25).normal_stress_x
        = (1 - 0.25) * (calculate_stress_distribution 5 7 50 0.25).maximum_stress ∧
    (calculate_stress_distribution 5 7 50 0.25).normal_stress_y
        = (calculate_stress_distribution 5 7 50 0.25).normal_stress_x ∧
    (calculate_stress_distribution 5 7 50 0.25).shear_stress
        = 0.25 * (calculate_stress_distribution 5 7 50 0.25).maximum_stress ∧
    (calculate_stress_distribution 5 7 50 0.25).normal_stress_x
        = 0.75 * (calculate_stress_distribution 5 7 50 0.25).maximum_stress ∧
    (calculate_stress_distribution 5 7 50 0.25).normal_stress_y
        = 0.75 * (calculate_stress_distribution 5 7 50 0.25).maximum_stress) :=
  ⟨by norm_num, calculate_stress_distribution_spec 5 7 50 0.25 (by norm_num)⟩

/-- numpy `np.clip(x, 0, 1)` on a scalar. -/
noncomputable def clip01 (x : ℝ) : ℝ :=
  min (max x 0) 1

/-- One step of the canyon-depth recurrence of `simulate_canyon_formation`:
`d + p * (1 - d/1000) * 0.1`, then clamped by `min(. , 1000)`. -/
noncomputable def depthStep (d p : ℝ) : ℝ :=
  min (d + p * (1 - d / 1000) * 0.1) 1000

/-- The canyon-depth tail built from depth `d` by folding `depthStep` over the
remaining formation probabilities. -/
noncomputable def canyonDepthFrom (d : ℝ) : List ℝ → List ℝ
  | [] => []
  | p :: ps => depthStep d p :: canyonDepthFrom (depthStep d p) ps

/-- The `canyon_depth` array of `simulate_canyon_formation` when the
formation-probability sequence matches the number of time steps: entry 0 is
0 (the probability at index 0 is never read), and entry `i` is
`depthStep` of entry `i-1` with probability `i`. -/
noncomputable def canyonDepth : List ℝ → List ℝ
  | [] => []
  | _ :: ps => 0 :: canyonDepthFrom 0 ps

theorem clip01_nonneg (x : ℝ) : 0 ≤ clip01 x := by
  unfold clip01
  exact le_min (le_max_right x 0) (by norm_num)

theorem depthStep_le_cap (d p : ℝ) : depthStep d p ≤ 1000 :=
  min_le_right _ _

theorem le_depthStep (d p : ℝ) (hd : d ≤ 1000) (hp : 0 ≤ p) :
    d ≤ depthStep d p := by
  unfold depthStep
  refine le_min ?_ hd
  nlinarith

theorem canyonDepthFrom_chain (ps : List ℝ) :
    ∀ d : ℝ, (∀ p ∈ ps, 0 ≤ p) → d ≤ 1000 →
      List.Chain' (· ≤ ·) (d :: canyonDepthFrom d ps) ∧
      ∀ x ∈ canyonDepthFrom d ps, x ≤ 1000 := by
  induction ps with
  | nil => intro d _ _; simp [canyonDepthFrom]
  | cons p ps ih =>
    intro d hp hd
    have hp0 : 0 ≤ p := hp p (List.mem_cons_self p ps)
    have hps : ∀ q ∈ ps, 0 ≤ q := fun q hq => hp q (List.mem_cons_of_mem p hq)
    have hd2 : depthStep d p ≤ 1000 := depthStep_le_cap d p
    obtain ⟨hchain, hbound⟩ := ih (depthStep d p) hps hd2
    refine ⟨?_, ?_⟩
    · exact List.chain'_cons.mpr ⟨le_depthStep d p hd hp0, hchain⟩
    · intro x hx
      rcases List.mem_cons.mp hx with hx | hx
      · exact hx ▸ hd2
      · exact hbound x hx

/-- C7: for any pre-clip formation-probability values, the canyon-depth
sequence built from their clipped values starts at 0, is non-decreasing, and
never exceeds 1000. -/
theorem canyonDepth_zero_monotone_bounded (xs : List ℝ) (hx : xs ≠ []) :
    (canyonDepth (xs.map clip01)).head? = some 0 ∧
    List.Chain' (· ≤ ·) (canyonDepth (xs.map clip01)) ∧
    ∀ d ∈ canyonDepth (xs.map clip01), d ≤ 1000 := by
  cases xs with
  | nil => exact absurd rfl hx
  | cons x xs =>
    simp only [List.map_cons, canyonDepth]
    have hps : ∀ p ∈ xs.map clip01, 0 ≤ p := by
      intro p hp
      obtain ⟨q, _, rfl⟩ := List.mem_map.mp hp
      exact clip01_nonneg q
    obtain ⟨hchain, hbound⟩ :=
      canyonDepthFrom_chain (xs.map clip01) 0 hps (by norm_num)
    refine ⟨rfl, hchain, ?_⟩
    intro d hd
    rcases List.mem_cons.mp hd with hd | hd
    · simp [hd]
    · exact hbound d hd


/-- The failure modes of the numpy array operations inside
`simulate_canyon_formation`. -/
inductive SimErr where
  | broadcastMismatch
  | indexOutOfBounds
deriving DecidableEq, Repr

/-- The dictionary returned by `simulate_canyon_formation` (the redundant
`time_steps` range is omitted; `final_depth` is taken as 0 on an empty
depth array, a case outside every claim). -/
structure SimulationResult where
  formation_probability : List ℝ
  canyon_depth : List ℝ
  peak_formation_probability : ℝ
  final_depth : ℝ

/-- numpy elementwise addition of two one-dimensional arrays, with numpy's
broadcasting of a length-1 operand and its shape error otherwise. -/
noncomputable def npBroadcastAdd (a b : List ℝ) : Except SimErr (List ℝ) :=
  if a.length = b.length then .ok (List.zipWith (· + ·) a b)
  else if a.length = 1 then .ok (b.map fun y => a.headD 0 + y)
  else if b.length = 1 then .ok (a.map fun x => x + b.headD 0)
  else .error .broadcastMismatch

/-- The depth loop of `simulate_canyon_formation` from absolute index `i`
with `n` iterations left: each iteration reads `formation_probability[i]`,
failing when the index is out of bounds. -/
noncomputable def canyonDepthGo (fp : List ℝ) : ℝ → ℕ → ℕ → Except SimErr (List ℝ)
  | _, _, 0 => .ok []
  | d, i, n + 1 =>
    match fp[i]? with
    | none => .error .indexOutOfBounds
    | some p =>
      match canyonDepthGo fp (depthStep d p) (i + 1) n with
      | .error e => .error e
      | .ok rest => .ok (depthStep d p :: rest)

/-- The full `canyon_depth` computation: a zero-initialised array of
`time_steps` entries, updated by the loop `for i in range(1, time_steps)`. -/
noncomputable def canyonDepthArr (fp : List ℝ) (time_steps : ℕ) :
    Except SimErr (List ℝ) :=
  match time_steps with
  | 0 => .ok []
  | n + 1 =>
    match canyonDepthGo fp 0 1 n with
    | .error e => .error e
    | .ok rest => .ok (0 :: rest)

/-- The formation-probability base sequence of `simulate_canyon_formation`
(before noise): one entry per seismic-activity sample. -/
noncomputable def formationProbabilityBase (stress_field : StressDistribution)
    (seismic_activity : List ℝ) : List ℝ :=
  (seismic_activity.map (minmaxNormalize seismic_activity)).map fun s =>
    stress_field.maximum_stress / max stress_field.maximum_stress 1e-10
      * (s + 0.1)
      * (stress_field.strain_rate / max stress_field.strain_rate 1e-15)

/-- `simulate_canyon_formation`, with the Gaussian noise array passed in as
the values the seeded generator produced: add noise to the base sequence
(numpy broadcasting), clip to [0,1], then run the depth recurrence. -/
noncomputable def simulate_canyon_formation (stress_field : StressDistribution)
    (seismic_activity noise : List ℝ) (time_steps : ℕ) :
    Except SimErr SimulationResult :=
  match npBroadcastAdd (formationProbabilityBase stress_field seismic_activity)
      noise with
  | .error e => .error e
  | .ok noised =>
    let fp := noised.map clip01
    match canyonDepthArr fp time_steps with
    | .error e => .error e
    | .ok depth =>
      .ok ⟨fp, depth, arrMax fp, depth.getLastD 0⟩

theorem canyonDepthGo_of_drop (tail : List ℝ) :
    ∀ (fp : List ℝ) (d : ℝ) (i : ℕ), fp.drop i = tail →
      canyonDepthGo fp d i tail.length = .ok (canyonDepthFrom d tail) := by
  induction tail with
  | nil => intro fp d i _; rfl
  | cons p ps ih =>
    intro fp d i hdrop
    have hget : fp[i]? = some p := by
      have h0 : (fp.drop i)[0]? = fp[i + 0]? := List.getElem?_drop fp i 0
      rw [hdrop] at h0
      simpa using h0.symm
    have hdrop2 : fp.drop (i + 1) = ps := by
      have := List.drop_drop 1 i fp
      rw [this.symm, hdrop]
      rfl
    show canyonDepthGo fp d i (ps.length + 1) = _
    simp only [canyonDepthGo, hget, ih fp (depthStep d p) (i + 1) hdrop2,
      canyonDepthFrom]

theorem canyonDepthArr_of_length (fp : List ℝ) :
    canyonDepthArr fp fp.length = .ok (canyonDepth fp) := by
  cases fp with
  | nil => rfl
  | cons q rest =>
    show canyonDepthArr (q :: rest) (rest.length + 1) = _
    simp only [canyonDepthArr, canyonDepthGo_of_drop rest (q :: rest) 0 1 rfl,
      canyonDepth]

/-- C7: for matching input lengths and non-degenerate seismic activity,
`simulate_canyon_formation` succeeds and its `canyon_depth` sequence starts
at 0, is non-decreasing (the clipped formation probabilities being
non-negative), and never exceeds 1000. -/
theorem simulate_canyon_depth_props (sf : StressDistribution)
    (sa noise : List ℝ) (T : ℕ) (hn : noise.length = T) (hsa : sa.length = T)
    (hT : 1 ≤ T) (hnd : arrMin sa ≠ arrMax sa) :
    ∃ res : SimulationResult,
      simulate_canyon_formation sf sa noise T = .ok res ∧
      res.canyon_depth.head? = some 0 ∧
      List.Chain' (· ≤ ·) res.canyon_depth ∧
      ∀ d ∈ res.canyon_depth, d ≤ 1000 := by
  have hbase : (formationProbabilityBase sf sa).length = T := by
    simp [formationProbabilityBase, hsa]
  have hadd : npBroadcastAdd (formationProbabilityBase sf sa) noise
      = .ok (List.zipWith (· + ·) (formationProbabilityBase sf sa) noise) := by
    unfold npBroadcastAdd
    rw [if_pos (hbase.trans hn.symm)]
  set noised := List.zipWith (· + ·) (formationProbabilityBase sf sa) noise
    with hnoised
  have hnl : noised.length = T := by
    simp [hnoised, hbase, hn]
  have hne : noised ≠ [] := by
    intro h
    rw [h] at hnl
    simp at hnl
    omega
  have hfl : (noised.map clip01).length = T := by simp [hnl]
  have harr : canyonDepthArr (noised.map clip01) T
      = .ok (canyonDepth (noised.map clip01)) := by
    rw [← hfl]
    exact canyonDepthArr_of_length _
  obtain ⟨h0, hchain, hbound⟩ := canyonDepth_zero_monotone_bounded noised hne
  refine ⟨⟨noised.map clip01, canyonDepth (noised.map clip01),
    arrMax (noised.map clip01), (canyonDepth (noised.map clip01)).getLastD 0⟩,
    ?_, h0, hchain, hbound⟩
  unfold simulate_canyon_formation
  rw [hadd]
  dsimp only
  rw [harr]

/-- A concrete stress summary for the simulation witnesses. -/
noncomputable def sampleStress : StressDistribution :=
  ⟨1, 1, 0.75, 0.75, 0.25⟩

theorem simulate_canyon_depth_props_witness :
    (([0, 0] : List ℝ).length = 2) ∧ (([0, 1] : List ℝ).length = 2) ∧
    (1 ≤ 2) ∧ (arrMin ([0, 1] : List ℝ) ≠ arrMax ([0, 1] : List ℝ)) ∧
    (∃ res : SimulationResult,
      simulate_canyon_formation sampleStress [0, 1] [0, 0] 2 = .ok res ∧
      res.canyon_depth.head? = some 0 ∧
      List.Chain' (· ≤ ·) res.canyon_depth ∧
      ∀ d ∈ res.canyon_depth, d ≤ 1000) :=
  ⟨by simp, by simp, by norm_num,
    by norm_num [arrMin, arrMax],
    simulate_canyon_depth_props sampleStress [0, 1] [0, 0] 2 (by simp)
      (by simp) (by norm_num) (by norm_num [arrMin, arrMax])⟩

/-- C8 counterexample: with two seismic samples and three time steps the
reference fails at the noise addition with a numpy broadcast shape error,
not with an out-of-bounds index in the depth recurrence. -/
theorem simulate_mismatch_cex :
    simulate_canyon_formation sampleStress [0, 1] [0, 0, 0] 3
        = .error .broadcastMismatch ∧
    simulate_canyon_formation sampleStress [0, 1] [0, 0, 0] 3
        ≠ .error .indexOutOfBounds := by
  have h : simulate_canyon_formation sampleStress [0, 1] [0, 0, 0] 3
      = .error .broadcastMismatch := by
    unfold simulate_canyon_formation npBroadcastAdd
    norm_num [formationProbabilityBase]
  exact ⟨h, by rw [h]; simp⟩

/-- C8 amended: the formation-probability base sequence has one entry per
seismic sample, and when `time_steps` exceeds the number of seismic samples
(at least two of them) the simulation fails with a broadcast shape error at
the noise addition, before the depth recurrence runs. -/
theorem simulate_mismatch_broadcast_error (sf : StressDistribution)
    (sa noise : List ℝ) (T : ℕ) (hn : noise.length = T)
    (hsa : 2 ≤ sa.length) (hT : sa.length < T) :
    (formationProbabilityBase sf sa).length = sa.length ∧
    simulate_canyon_formation sf sa noise T = .error .broadcastMismatch := by
  have hbase : (formationProbabilityBase sf sa).length = sa.length := by
    simp [formationProbabilityBase]
  refine ⟨hbase, ?_⟩
  have h1 : ¬ (formationProbabilityBase sf sa).length = noise.length := by
    rw [hbase, hn]; omega
  have h2 : ¬ (formationProbabilityBase sf sa).length = 1 := by
    rw [hbase]; omega
  have h3 : ¬ noise.length = 1 := by
    rw [hn]; omega
  unfold simulate_canyon_formation npBroadcastAdd
  rw [if_neg h1, if_neg h2, if_neg h3]

theorem simulate_mismatch_broadcast_error_witness :
    (([0, 0, 0] : List ℝ).length = 3) ∧ (2 ≤ ([0, 1] : List ℝ).length) ∧
    (([0, 1] : List ℝ).length < 3) ∧
    ((formationProbabilityBase sampleStress [0, 1]).length
        = ([0, 1] : List ℝ).length ∧
      simulate_canyon_formation sampleStress [0, 1] [0, 0, 0] 3
        = .error .broadcastMismatch) :=
  ⟨by simp, by simp, by simp,
    simulate_mismatch_broadcast_error sampleStress [0, 1] [0, 0, 0] 3
      (by simp) (by simp) (by simp)⟩

/-- The state of numpy's global random generator, abstracted. -/
abbrev RngState := ℕ

/-- `np.random.seed(k)`: the global generator state becomes a function of the
seed alone; whatever state was there before is discarded. -/
def npRandomSeed (k : ℕ) (_prev : RngState) : RngState := k

/-- `simulate_canyon_formation` as called through numpy's global generator:
`np.random.seed(42)` resets the incoming global state `g`, then the draw
function (any deterministic pseudorandom generator, e.g. the Mersenne
Twister behind `np.random.normal(0, 0.1, time_steps)`) produces the noise
array and the new generator state. -/
noncomputable def simulateWithGlobalRng
    (draw : RngState → ℕ → List ℝ × RngState) (g : RngState)
    (stress_field : StressDistribution) (seismic_activity : List ℝ)
    (time_steps : ℕ) :
    Except SimErr SimulationResult × RngState :=
  let g1 := npRandomSeed 42 g
  let res := draw g1 time_steps
  (simulate_canyon_formation stress_field seismic_activity res.1 time_steps,
    res.2)

/-- C9: the simulation is deterministic across invocations: whatever the
incoming global generator state, the reseed with the fixed value 42 makes
the noise, and with it the whole simulation result, a function of the
arguments alone — two calls with identical arguments agree, and both equal
the simulation on the noise drawn from state 42. -/
theorem simulate_deterministic_fixed_seed :
    ∀ (draw : RngState → ℕ → List ℝ × RngState) (g g' : RngState)
      (sf : StressDistribution) (sa : List ℝ) (T : ℕ),
      (simulateWithGlobalRng draw g sf sa T).1
          = (simulateWithGlobalRng draw g' sf sa T).1 ∧
      (simulateWithGlobalRng draw g sf sa T).1
          = simulate_canyon_formation sf sa (draw 42 T).1 T := by
  intro draw g g' sf sa T
  exact ⟨rfl, rfl⟩
